import Mathlib

/-!
# Verification of the Letterboxd → Notion sync script

Shallow embedding of `src/scripts/sync-letterboxd-to-notion.js`.

Strings are modelled as `List Char` (JavaScript iterates strings by code
point, which matches `Char`).  JavaScript string helpers used by the script
(`trim`, `split(" - ")`, the regex `/^(.*),\s(\d{4})$/`) are embedded as
structurally recursive functions below, so that every definition evaluates
inside the kernel.
-/

/-- Strings of the script, modelled as lists of code points. -/

abbrev Str := List Char

/-- Embed a Lean string literal into the model. -/

def str (s : String) : Str := s.data

/-- Whitespace as recognised by JavaScript `String.prototype.trim` and by the
regex class `\s` (restricted to the ASCII whitespace characters, which are the
only ones the feed data can contain). -/

def isSpaceChar (c : Char) : Bool :=
  c == ' ' || c == '\t' || c == '\n' || c == '\r' || c == '\x0b' || c == '\x0c'

/-- Line terminators, which the JavaScript regex metacharacter `.` does not
match: `\n`, `\r`, U+2028, U+2029. -/

def isLineTerminator (c : Char) : Bool :=
  c == '\n' || c == '\r' || c == '\u2028' || c == '\u2029'

/-- `String.prototype.trim`: drop whitespace from both ends. -/

def trimChars (l : Str) : Str :=
  (((l.dropWhile isSpaceChar).reverse.dropWhile isSpaceChar)).reverse

/-- `s.split(" - ")`: split on every non-overlapping occurrence of the literal
separator `" - "`, scanning left to right.  `acc` is the part accumulated
since the previous separator. -/

def splitDash (acc : Str) : Str → List Str
  | [] => [acc]
  | [a] => [acc ++ [a]]
  | [a, b] => [acc ++ [a, b]]
  | a :: b :: c :: rest =>
    if a == ' ' && b == '-' && c == ' ' then acc :: splitDash [] rest
    else splitDash (acc ++ [a]) (b :: c :: rest)

/-- Whether the separator `" - "` occurs anywhere in `l`. -/

def hasSepIn : Str → Bool
  | a :: b :: c :: rest => (a == ' ' && b == '-' && c == ' ') || hasSepIn (b :: c :: rest)
  | _ => false

/-- The JavaScript regex match `left.match(/^(.*),\s(\d{4})$/)`.

The suffix `,\s\d{4}` has fixed length 6 and is anchored at the end, so the
match is determined: the string must end in a comma, one whitespace character
and four digits, and (because `.` does not match line terminators) the prefix
bound by the greedy `(.*)` group must contain no line terminator.  Returns
`(m[1], m[2])` = (prefix, four digits) on success. -/

def matchTitleYear (left : Str) : Option (Str × Str) :=
  match left.reverse with
  | d4 :: d3 :: d2 :: d1 :: w :: comma :: preRev =>
    if comma == ',' && isSpaceChar w && d1.isDigit && d2.isDigit && d3.isDigit && d4.isDigit
        && preRev.all (fun c => !(isLineTerminator c)) then
      some (preRev.reverse, [d1, d2, d3, d4])
    else none
  | _ => none

/-- Result of `parseRssTitle`. -/

structure ParsedTitle where
  title : Str
  year : Option Str
  stars : Option Str
deriving DecidableEq, Repr

/-- The trimmed parts of the raw title: `s.split(" - ").map((x) => x?.trim())`
applied to `s = rawTitle.trim()`. -/

def rssParts (rawTitle : Str) : List Str :=
  (splitDash [] (trimChars rawTitle)).map trimChars

/-- The title candidate before the `|| s` fallback: `m ? m[1] : left`. -/

def titleCandidate (left : Str) : Str :=
  match matchTitleYear left with
  | some tm => tm.1
  | none => left

/-- `parseRssTitle(rawTitle)` from the script:

```js
const s = (rawTitle || "").trim();
const [left, stars] = s.split(" - ").map((x) => x?.trim());
const m = left?.match(/^(.*),\s(\d{4})$/);
return { title: (m ? m[1] : left) || s,
         year: m ? m[2] : null,
         stars: stars || null };
```

`split` always returns at least one part, so `left` is a string; `stars` is
`undefined` when there is no separator, and `stars || null` sends the empty
string to `null`.  `(m ? m[1] : left) || s` falls back to the whole trimmed
string when the candidate is empty. -/

def parseRssTitle (rawTitle : Str) : ParsedTitle :=
  { title :=
      if titleCandidate ((rssParts rawTitle).headD []) = []
      then trimChars rawTitle
      else titleCandidate ((rssParts rawTitle).headD [])
    year := (matchTitleYear ((rssParts rawTitle).headD [])).map Prod.snd
    stars :=
      match (rssParts rawTitle)[1]? with
      | some st => if st = [] then none else some st
      | none => none }

/-- One step of the star-counting loop: `if (ch === "★") val += 1; if (ch === "½") val += 0.5;`. -/

def starStep (acc : ℚ) (ch : Char) : ℚ :=
  let acc1 := if ch = '★' then acc + 1 else acc
  if ch = '½' then acc1 + 1 / 2 else acc1

/-- `starsToNumber(stars)` from the script:

```js
if (!stars) return null;
let val = 0;
for (const ch of stars) { if (ch === "★") val += 1; if (ch === "½") val += 0.5; }
return val || null;
```

`!stars` is true for `null`/`undefined` and for the empty string; `val || null`
sends a zero sum to `null`.  The sum is exact in ℚ (and in IEEE doubles, since
every partial sum is a half-integer far below 2^52). -/

def starsToNumber (stars : Option Str) : Option ℚ :=
  match stars with
  | none => none
  | some s =>
    if s = [] then none
    else
      let val := s.foldl starStep 0
      if val = 0 then none else some val

/-- The star sum measured in half-star units: two units per full-star glyph,
one per half-star glyph.  A natural number, so it evaluates in the kernel. -/

def halfUnits (s : Str) : ℕ :=
  2 * s.countP (fun c => c == '★') + s.countP (fun c => c == '½')

/-! ## Enrichment (TMDB) and the record writer (Notion)

The two TMDB helpers wrap `fetch`.  In JavaScript, a *rejected* `fetch`
(network failure) or a failing `res.json()` (response-parse failure) throws;
neither helper catches, and `main` has no try/catch, so such an exception
propagates to `main().catch(...)` which exits the process.  Only a delivered
response with a non-ok HTTP status, or a JSON body without usable fields, is
absorbed by returning `null`.  The four possible outcomes of one
fetch-and-parse round trip are modelled explicitly. -/

/-- Outcome of one `fetch(url)` + `res.json()` round trip, `α` being the
shape of the parsed JSON body. -/

inductive FetchOutcome (α : Type) where
  /-- The `fetch` promise rejected (network failure): an exception is thrown. -/
  | reject
  /-- A response arrived but `res.ok` is false. -/
  | badStatus
  /-- `res.json()` failed to parse the body: an exception is thrown. -/
  | badJson
  /-- A response arrived with `res.ok` and a parsed JSON body. -/
  | ok (body : α)

/-- The exceptions that can escape the per-item pipeline (uncaught, they
abort the whole run via `main().catch`). -/

inductive SyncError where
  | fetchRejected
  | jsonParseFailed
deriving DecidableEq, Repr

/-- A movie object from the TMDB search results: `id` (0 is falsy in the
`tmdbHit?.id` check, like an absent id) and optional `poster_path`. -/

structure TmdbMovie where
  id : ℕ
  poster_path : Option Str
deriving DecidableEq, Repr

/-- A crew entry from the TMDB credits response. -/

structure CrewMember where
  job : Str
  name : Str
deriving DecidableEq, Repr

/-- `tmdbSearchMovie(title, year)`:

```js
const res = await fetch(url);
if (!res.ok) return null;
const json = await res.json();
return json?.results?.[0] || null;
```

The `results` field may be absent from the body (`json?.results` is then
`undefined` and the function returns `null`). -/

def tmdbSearchMovie (outcome : FetchOutcome (Option (List TmdbMovie))) :
    Except SyncError (Option TmdbMovie) :=
  match outcome with
  | .reject => .error .fetchRejected
  | .badStatus => .ok none
  | .badJson => .error .jsonParseFailed
  | .ok results => .ok (results.getD []).head?

/-- `tmdbGetDirector(movieId)`:

```js
const res = await fetch(url);
if (!res.ok) return null;
const json = await res.json();
const crew = json?.crew || [];
const director = crew.find((c) => c.job === "Director");
return director?.name || null;
```

`director?.name || null` sends an empty name to `null`. -/

def tmdbGetDirector (outcome : FetchOutcome (Option (List CrewMember))) :
    Except SyncError (Option Str) :=
  match outcome with
  | .reject => .error .fetchRejected
  | .badStatus => .ok none
  | .badJson => .error .jsonParseFailed
  | .ok crew =>
    match (crew.getD []).find? (fun c => c.job == str "Director") with
    | some d => .ok (if d.name = [] then none else some d.name)
    | none => .ok none

/-- `tmdbPosterUrl(posterPath)`: `null` for a falsy path, else the fixed
image-host prefix plus the path. -/

def tmdbPosterUrl (posterPath : Option Str) : Option Str :=
  match posterPath with
  | none => none
  | some p => if p = [] then none else some (str "https://image.tmdb.org/t/p/w500" ++ p)

/-- An `<img>` element of the parsed RSS description HTML, with its optional
`src` attribute.  The HTML parsing itself is done by the external
`node-html-parser` library; the model receives the list of `img` elements in
document order, as `querySelector` traverses them. -/

structure HtmlImg where
  src : Option Str
deriving DecidableEq, Repr

/-- `posterFromRssDescription(html)`: the `src` attribute of the first image
element, `null` if there is no image, no `src` attribute, or an empty one
(`img?.getAttribute("src") || null`). -/

def posterFromRssDescription (imgs : List HtmlImg) : Option Str :=
  match imgs.head? with
  | some img =>
    match img.src with
    | some s => if s = [] then none else some s
    | none => none
  | none => none

/-- The TMDB environment one item's enrichment runs against: whether
`TMDB_KEY` is configured (truthy), and the outcome of each of the two
endpoint calls were they to be made. -/

structure TmdbEnv where
  hasKey : Bool
  search : FetchOutcome (Option (List TmdbMovie))
  credits : FetchOutcome (Option (List CrewMember))

/-- The enrichment block of `main`:

```js
let posterUrl = posterFromRssDescription(descriptionHtml);
let director = null;
if (TMDB_KEY) {
  const tmdbHit = await tmdbSearchMovie(title, year);
  if (tmdbHit?.id) {
    director = await tmdbGetDirector(tmdbHit.id);
    const tmdbPoster = tmdbPosterUrl(tmdbHit.poster_path);
    if (tmdbPoster) posterUrl = tmdbPoster;
  }
}
```

Returns `(director, posterUrl)` on success; a thrown exception propagates. -/

def enrichItem (env : TmdbEnv) (fallbackPoster : Option Str) :
    Except SyncError (Option Str × Option Str) :=
  if env.hasKey then
    match tmdbSearchMovie env.search with
    | .error e => .error e
    | .ok hit =>
      match hit with
      | some h =>
        if h.id ≠ 0 then
          match tmdbGetDirector env.credits with
          | .error e => .error e
          | .ok director =>
            .ok (director,
              match tmdbPosterUrl h.poster_path with
              | some p => some p
              | none => fallbackPoster)
        else .ok (none, fallbackPoster)
      | none => .ok (none, fallbackPoster)
  else .ok (none, fallbackPoster)

/-- JavaScript string truthiness on an optional string: `null`, `undefined`
and `""` are falsy. -/

def truthyStr : Option Str → Option Str
  | some s => if s = [] then none else some s
  | none => none

/-- The argument object of `notionCreateMoviePage`. -/

structure CreateArgs where
  title : Str
  director : Option Str
  watchedDate : Option Str
  rating : Option ℚ
  posterUrl : Option Str
  goals : Str
  status : Str
  mediaType : Str
  format : Str
  letterboxdUrl : Str
deriving DecidableEq, Repr

/-- A Notion property value as built by `notionCreateMoviePage`. -/

inductive PropValue where
  /-- `{ title: [{ text: { content } }] }` -/
  | titleContent (content : Str)
  /-- `{ rich_text: [...] }`, one text content per array element -/
  | richText (contents : List Str)
  /-- `{ date: { start } }` -/
  | dateStart (start : Str)
  /-- `{ number }` -/
  | number (n : ℚ)
  /-- `{ select: { name } }` -/
  | selectName (name : Str)
  /-- `{ url }` -/
  | url (u : Str)
  /-- `{ files: [{ type: "external", name, external: { url } }] }`,
  one `(name, url)` pair per file -/
  | externalFiles (files : List (Str × Str))
deriving DecidableEq, Repr

/-- `notionCreateMoviePage(...)`: the `props` object sent to
`notion.pages.create`, as an ordered key/value list.  Each entry whose value
is `undefined` (`none` here) is deleted (`delete props[k]`), i.e. dropped by
the `filterMap`:

```js
const props = {
  "Name": { title: [{ text: { content: title } }] },
  "Author": director ? { rich_text: [{ text: { content: director } }] } : { rich_text: [] },
  "Date Read/Watched": watchedDate ? { date: { start: watchedDate } } : undefined,
  "My Rating": rating != null ? { number: rating } : undefined,
  "Goals": { rich_text: [{ text: { content: goals } }] },
  "Status": { select: { name: status } },
  "media type": { select: { name: mediaType } },
  "Format": { select: { name: format } },
  "Letterboxd URL": { url: letterboxdUrl },
  "Image": posterUrl ? { files: [...] } : undefined
};
Object.keys(props).forEach((k) => props[k] === undefined && delete props[k]);
```

Note `"Author"` is always present (an empty `rich_text` array when `director`
is falsy), while `"Date Read/Watched"`, `"My Rating"` and `"Image"` are
omitted; `rating != null` is a loose comparison, so a rating of 0 would be
written (it cannot arise, see `starsToNumber`). -/

def notionCreateMoviePage (a : CreateArgs) : List (Str × PropValue) :=
  ([ (str "Name", some (.titleContent a.title)),
     (str "Author", some (.richText (match truthyStr a.director with
       | some d => [d]
       | none => []))),
     (str "Date Read/Watched", (truthyStr a.watchedDate).map .dateStart),
     (str "My Rating", a.rating.map .number),
     (str "Goals", some (.richText [a.goals])),
     (str "Status", some (.selectName a.status)),
     (str "media type", some (.selectName a.mediaType)),
     (str "Format", some (.selectName a.format)),
     (str "Letterboxd URL", some (.url a.letterboxdUrl)),
     (str "Image", (truthyStr a.posterUrl).map
       (fun u => .externalFiles [(str "poster", u)])) ] :
    List (Str × Option PropValue)).filterMap
      (fun kv => kv.2.map (fun v => (kv.1, v)))

/-- One feed item, after the XML parse in `main`: `item.title[0] || ""`,
`item.link[0] || ""`, `item["letterboxd:watchedDate"][0] || null`, and the
`img` elements of the parsed description HTML. -/

structure FeedItem where
  rawTitle : Str
  link : Str
  watchedDate : Option Str
  descriptionImgs : List HtmlImg

/-- The body of `main`'s per-item loop, for one item.

* `store` is the destination state the dedup query runs against:
  `store l = true` iff the Notion database holds a page whose
  `"Letterboxd URL"` property equals `l` (`notionFindByLetterboxdUrl`
  queries with `page_size: 1` and the loop only tests existence).
* Returns `.ok none` when the item is skipped (empty link, or dedup hit),
  `.ok (some page)` when a create call with properties `page` is issued, and
  `.error e` when an uncaught enrichment exception aborts the run. -/

def processItem (store : Str → Bool) (env : TmdbEnv) (item : FeedItem) :
    Except SyncError (Option (List (Str × PropValue))) :=
  if item.link = [] then .ok none
  else if store item.link then .ok none
  else
    match enrichItem env (posterFromRssDescription item.descriptionImgs) with
    | .error e => .error e
    | .ok dp =>
      .ok (some (notionCreateMoviePage
        { title := (parseRssTitle item.rawTitle).title
          director := dp.1
          watchedDate := item.watchedDate
          rating := starsToNumber (parseRssTitle item.rawTitle).stars
          posterUrl := dp.2
          goals := str "certified cinephile"
          status := str "watched"
          mediaType := str "movie"
          format := str "movie"
          letterboxdUrl := item.link }))

/-- The whole run of `main` over the feed items, in feed order.  Returns the
list of create calls issued (in order) and the uncaught exception that aborted
the run, if any.  After a successful create the destination store contains the
new page, so later dedup queries for the same link find it. -/

def runSync (store : Str → Bool) (envOf : FeedItem → TmdbEnv) :
    List FeedItem → List (List (Str × PropValue)) × Option SyncError
  | [] => ([], none)
  | item :: rest =>
    match processItem store (envOf item) item with
    | .error e => ([], some e)
    | .ok none => runSync store envOf rest
    | .ok (some page) =>
      let r := runSync (fun l => store l || l == item.link) envOf rest
      (page :: r.1, r.2)

/-- Arguments with every optional field null, for the C4 witness. -/

def allNullArgs : CreateArgs :=
  { title := str "T"
    director := none
    watchedDate := none
    rating := none
    posterUrl := none
    goals := str "certified cinephile"
    status := str "watched"
    mediaType := str "movie"
    format := str "movie"
    letterboxdUrl := str "https://example.com/film/x" }

/-- The `CreateArgs` produced for an item when no enrichment is applied
(no TMDB key, or the search degraded to no match): director null, poster the
RSS fallback. -/

def unenrichedArgs (item : FeedItem) : CreateArgs :=
  { title := (parseRssTitle item.rawTitle).title
    director := none
    watchedDate := item.watchedDate
    rating := starsToNumber (parseRssTitle item.rawTitle).stars
    posterUrl := posterFromRssDescription item.descriptionImgs
    goals := str "certified cinephile"
    status := str "watched"
    mediaType := str "movie"
    format := str "movie"
    letterboxdUrl := item.link }

/-- The end-to-end feed item of §8 of the spec: title
`"Stand by Me, 1986 - ★★★★"`, link `"https://example.com/film/x"`. -/

def standByMeItem (wd : Option Str) (imgs : List HtmlImg) : FeedItem :=
  { rawTitle := str "Stand by Me, 1986 - ★★★★"
    link := str "https://example.com/film/x"
    watchedDate := wd
    descriptionImgs := imgs }

/-- A concrete item for witnesses. -/

def sampleItem : FeedItem := standByMeItem none []

/-- A destination store already holding the sample item's link. -/

def sampleStoreHit : Str → Bool := fun l => l == str "https://example.com/film/x"

/-- A TMDB environment with no key configured. -/

def sampleEnvNoKey : TmdbEnv :=
  { hasKey := false, search := .badStatus, credits := .badStatus }

/-! ## Theorems -/

theorem foldl_starStep (s : Str) : ∀ a : ℚ,
    s.foldl starStep a
      = a + (s.countP (fun c => c == '★') : ℚ) + (s.countP (fun c => c == '½') : ℚ) / 2 := by
  induction s with
  | nil => intro a; simp
  | cons c t ih =>
    intro a
    simp only [List.foldl_cons, ih, List.countP_cons]
    by_cases h1 : c = '★'
    · subst h1
      simp only [starStep, if_pos rfl]
      norm_num
      push_cast
      ring
    · by_cases h2 : c = '½'
      · subst h2
        simp only [starStep, h1, if_neg, if_pos rfl]
        norm_num [h1]
        ring
      · simp only [starStep, if_neg h1, if_neg h2]
        norm_num [h1, h2]

/-- Characterization of `starsToNumber` on present strings: the result is the
half-star unit count divided by two, or `null` when that count is zero (the
empty string has count zero, so the `!stars` check folds into the same test). -/
theorem starsToNumber_some_eq (s : Str) :
    starsToNumber (some s)
      = if halfUnits s = 0 then none else some ((halfUnits s : ℚ) / 2) := by
  simp only [starsToNumber, foldl_starStep, halfUnits]
  rcases s with _ | ⟨c, t⟩
  · simp
  · simp only [if_neg (List.cons_ne_nil c t)]
    set k1 : ℕ := ((c :: t).countP fun c => c == '★') with hk1
    set k2 : ℕ := ((c :: t).countP fun c => c == '½') with hk2
    have hval : (0 : ℚ) + (k1 : ℚ) + (k2 : ℚ) / 2 = ((2 * k1 + k2 : ℕ) : ℚ) / 2 := by
      push_cast
      ring
    rw [hval]
    by_cases h : 2 * k1 + k2 = 0
    · rw [if_pos h, if_pos]
      rw [h]
      norm_num
    · rw [if_neg h, if_neg]
      intro hc
      apply h
      have : ((2 * k1 + k2 : ℕ) : ℚ) = 0 := by
        field_simp at hc
        exact_mod_cast hc
      exact_mod_cast this

example : parseRssTitle (str "Stand by Me, 1986 - ★★★★") =
    { title := str "Stand by Me", year := some (str "1986"), stars := some (str "★★★★") } := by
  decide

example : starsToNumber (some (str "★★★★")) = some 4 := by
  have h : halfUnits (str "★★★★") = 8 := by decide
  rw [starsToNumber_some_eq, h]
  norm_num

example : starsToNumber (some (str "★★★½")) = some (7/2) := by
  have h : halfUnits (str "★★★½") = 7 := by decide
  rw [starsToNumber_some_eq, h]
  norm_num

example : parseRssTitle (str "a - b, 1986 - ★★★½") =
    { title := str "a", year := none, stars := some (str "b, 1986") } := by
  decide

example : parseRssTitle (str ", 1986 - x - c") =
    { title := str ", 1986 - x - c", year := some (str "1986"), stars := some (str "x") } := by
  decide

/-- C5: star-rating parsing distinguishes "unrated" from "rated zero": an
absent or empty glyph string yields `null`, and no output of `starsToNumber`
is ever the rating 0 — every non-null result is at least one half star, so the
null for "unrated" can never collide with a computed 0. -/
theorem starsToNumber_empty_null_never_zero :
    starsToNumber none = none ∧ starsToNumber (some []) = none ∧
      ∀ (o : Option Str) (r : ℚ), starsToNumber o = some r → (1 / 2 : ℚ) ≤ r := by
  refine ⟨rfl, rfl, ?_⟩
  intro o r h
  rcases o with _ | s
  · simp [starsToNumber] at h
  · rw [starsToNumber_some_eq] at h
    by_cases hz : halfUnits s = 0
    · rw [if_pos hz] at h
      cases h
    · rw [if_neg hz] at h
      have hr : (halfUnits s : ℚ) / 2 = r := Option.some.inj h
      have h1 : (1 : ℚ) ≤ (halfUnits s : ℚ) := by
        exact_mod_cast Nat.one_le_iff_ne_zero.mpr hz
      rw [← hr]
      gcongr

theorem starsToNumber_empty_null_never_zero_witness :
    starsToNumber none = none ∧ starsToNumber (some []) = none ∧ (1 / 2 : ℚ) ≤ 1 := by
  refine ⟨starsToNumber_empty_null_never_zero.1, starsToNumber_empty_null_never_zero.2.1, ?_⟩
  refine starsToNumber_empty_null_never_zero.2.2 (some (str "★")) 1 ?_
  rw [starsToNumber_some_eq, (by decide : halfUnits (str "★") = 2)]
  norm_num

/-- C9: star-rating parsing is order-independent — glyph strings that are
permutations of the same multiset of characters get the same rating. -/
theorem starsToNumber_perm_invariant (s₁ s₂ : Str) (h : s₁.Perm s₂) :
    starsToNumber (some s₁) = starsToNumber (some s₂) := by
  rw [starsToNumber_some_eq, starsToNumber_some_eq]
  have hcount : halfUnits s₁ = halfUnits s₂ := by
    unfold halfUnits
    rw [h.countP_eq, h.countP_eq]
  rw [hcount]

theorem starsToNumber_perm_invariant_witness :
    starsToNumber (some (str "★½")) = starsToNumber (some (str "½★")) :=
  starsToNumber_perm_invariant (str "★½") (str "½★") (by decide)

/-- C8 (counterexample): the normalized rating is not bounded by 5 — the raw
title `"x - ★★★★★★"` normalizes to the rating 6. -/
theorem rating_exceeds_five_counterexample :
    starsToNumber (parseRssTitle (str "x - ★★★★★★")).stars = some 6 ∧ ¬ ((6 : ℚ) ≤ 5) := by
  constructor
  · rw [(by decide : (parseRssTitle (str "x - ★★★★★★")).stars = some (str "★★★★★★")),
      starsToNumber_some_eq, (by decide : halfUnits (str "★★★★★★") = 12)]
    norm_num
  · norm_num

/-- C8 (amended): for every raw title the normalized star rating, when
non-null, is a positive integer multiple of 0.5 — at least 0.5, with no upper
bound enforced by the code. -/
theorem rating_positive_half_integer (raw : Str) (r : ℚ)
    (h : starsToNumber (parseRssTitle raw).stars = some r) :
    0 ≤ r ∧ ∃ n : ℕ, 1 ≤ n ∧ r = (n : ℚ) / 2 := by
  rcases hst : (parseRssTitle raw).stars with _ | s
  · rw [hst] at h
    cases h
  · rw [hst, starsToNumber_some_eq] at h
    by_cases hz : halfUnits s = 0
    · rw [if_pos hz] at h
      cases h
    · rw [if_neg hz] at h
      have hr : (halfUnits s : ℚ) / 2 = r := Option.some.inj h
      refine ⟨?_, halfUnits s, Nat.one_le_iff_ne_zero.mpr hz, hr.symm⟩
      rw [← hr]
      positivity

theorem rating_positive_half_integer_witness :
    0 ≤ (4 : ℚ) ∧ ∃ n : ℕ, 1 ≤ n ∧ (4 : ℚ) = (n : ℚ) / 2 := by
  refine rating_positive_half_integer (str "x - ★★★★") 4 ?_
  rw [(by decide : (parseRssTitle (str "x - ★★★★")).stars = some (str "★★★★")),
    starsToNumber_some_eq, (by decide : halfUnits (str "★★★★") = 8)]
  norm_num

/-- C2 (counterexample): the normalization rule fails for titles containing
the separator `" - "`: with T = `"a - b"` and YYYY = `"1986"`, the raw title
`"a - b, 1986 - ★★★½"` does not normalize to title = T, year = `"1986"`,
rating = 3.5 (the split takes `"a"` as the left part instead). -/
theorem parseRssTitle_embedded_separator_counterexample :
    ¬ ((parseRssTitle (str "a - b, 1986 - ★★★½")).title = str "a - b" ∧
       (parseRssTitle (str "a - b, 1986 - ★★★½")).year = some (str "1986") ∧
       starsToNumber (parseRssTitle (str "a - b, 1986 - ★★★½")).stars = some (7 / 2)) := by
  intro h
  have h1 := h.1
  rw [(by decide : (parseRssTitle (str "a - b, 1986 - ★★★½")).title = str "a")] at h1
  exact (by decide : ¬ (str "a" = str "a - b")) h1

/-- C10 (counterexample): text after the second separator can contribute to
the parsed title — `", 1986 - x - c"` and `", 1986 - x - d"` agree on the
first two parts but parse differently, because the empty title candidate falls
back to the whole trimmed raw title. -/
theorem extra_separator_contributes_counterexample :
    (rssParts (str ", 1986 - x - c"))[0]? = (rssParts (str ", 1986 - x - d"))[0]? ∧
    (rssParts (str ", 1986 - x - c"))[1]? = (rssParts (str ", 1986 - x - d"))[1]? ∧
    3 ≤ (rssParts (str ", 1986 - x - c")).length ∧
    3 ≤ (rssParts (str ", 1986 - x - d")).length ∧
    parseRssTitle (str ", 1986 - x - c") ≠ parseRssTitle (str ", 1986 - x - d") := by
  decide

/-- C10 (amended): when two raw titles split into the same first part and the
same second part (each with at least two separators), and the title candidate
computed from the first part is nonempty, the parsed result — title, year and
rating — is the same: text after the second separator is discarded. -/
theorem extra_separators_discarded (s₁ s₂ : Str)
    (_hlen₁ : 3 ≤ (rssParts s₁).length) (_hlen₂ : 3 ≤ (rssParts s₂).length)
    (h0 : (rssParts s₁)[0]? = (rssParts s₂)[0]?)
    (h1 : (rssParts s₁)[1]? = (rssParts s₂)[1]?)
    (hcand : titleCandidate ((rssParts s₁).headD []) ≠ []) :
    parseRssTitle s₁ = parseRssTitle s₂ ∧
      starsToNumber (parseRssTitle s₁).stars = starsToNumber (parseRssTitle s₂).stars := by
  have hh : (rssParts s₁).headD [] = (rssParts s₂).headD [] := by
    rw [List.headD_eq_head?_getD, List.headD_eq_head?_getD,
      List.head?_eq_getElem?, List.head?_eq_getElem?, h0]
  have hmain : parseRssTitle s₁ = parseRssTitle s₂ := by
    unfold parseRssTitle
    rw [hh, h1, if_neg (hh ▸ hcand), if_neg (hh ▸ hcand)]
  exact ⟨hmain, by rw [hmain]⟩

theorem extra_separators_discarded_witness :
    parseRssTitle (str "t, 1986 - ★ - j1") = parseRssTitle (str "t, 1986 - ★ - j2") ∧
      starsToNumber (parseRssTitle (str "t, 1986 - ★ - j1")).stars =
        starsToNumber (parseRssTitle (str "t, 1986 - ★ - j2")).stars :=
  extra_separators_discarded (str "t, 1986 - ★ - j1") (str "t, 1986 - ★ - j2")
    (by decide) (by decide) (by decide) (by decide) (by decide)

theorem lookup_name (a : CreateArgs) :
    List.lookup (str "Name") (notionCreateMoviePage a) = some (.titleContent a.title) := by
  unfold notionCreateMoviePage
  rcases truthyStr a.director with _ | d <;> rcases truthyStr a.watchedDate with _ | w <;>
    rcases a.rating with _ | r <;> rcases truthyStr a.posterUrl with _ | p <;> rfl

theorem lookup_author (a : CreateArgs) :
    List.lookup (str "Author") (notionCreateMoviePage a)
      = some (.richText (match truthyStr a.director with
          | some d => [d]
          | none => [])) := by
  unfold notionCreateMoviePage
  rcases truthyStr a.director with _ | d <;> rcases truthyStr a.watchedDate with _ | w <;>
    rcases a.rating with _ | r <;> rcases truthyStr a.posterUrl with _ | p <;> rfl

theorem lookup_date (a : CreateArgs) :
    List.lookup (str "Date Read/Watched") (notionCreateMoviePage a)
      = (truthyStr a.watchedDate).map PropValue.dateStart := by
  unfold notionCreateMoviePage
  rcases truthyStr a.director with _ | d <;> rcases truthyStr a.watchedDate with _ | w <;>
    rcases a.rating with _ | r <;> rcases truthyStr a.posterUrl with _ | p <;> rfl

theorem lookup_rating (a : CreateArgs) :
    List.lookup (str "My Rating") (notionCreateMoviePage a)
      = a.rating.map PropValue.number := by
  unfold notionCreateMoviePage
  rcases truthyStr a.director with _ | d <;> rcases truthyStr a.watchedDate with _ | w <;>
    rcases a.rating with _ | r <;> rcases truthyStr a.posterUrl with _ | p <;> rfl

theorem lookup_url (a : CreateArgs) :
    List.lookup (str "Letterboxd URL") (notionCreateMoviePage a)
      = some (.url a.letterboxdUrl) := by
  unfold notionCreateMoviePage
  rcases truthyStr a.director with _ | d <;> rcases truthyStr a.watchedDate with _ | w <;>
    rcases a.rating with _ | r <;> rcases truthyStr a.posterUrl with _ | p <;> rfl

theorem lookup_image (a : CreateArgs) :
    List.lookup (str "Image") (notionCreateMoviePage a)
      = (truthyStr a.posterUrl).map (fun u => PropValue.externalFiles [(str "poster", u)]) := by
  unfold notionCreateMoviePage
  rcases truthyStr a.director with _ | d <;> rcases truthyStr a.watchedDate with _ | w <;>
    rcases a.rating with _ | r <;> rcases truthyStr a.posterUrl with _ | p <;> rfl

/-- C4: in the create payload, each of the watched-date, rating and poster
fields whose computed value is null is omitted entirely (its property key is
absent from the payload), never sent as an explicit null; the director field,
by contrast, stays present as an empty rich-text field when null. -/
theorem create_payload_omits_null_fields (a : CreateArgs) :
    (a.watchedDate = none →
      List.lookup (str "Date Read/Watched") (notionCreateMoviePage a) = none) ∧
    (a.rating = none →
      List.lookup (str "My Rating") (notionCreateMoviePage a) = none) ∧
    (a.posterUrl = none →
      List.lookup (str "Image") (notionCreateMoviePage a) = none) ∧
    (a.director = none →
      List.lookup (str "Author") (notionCreateMoviePage a) = some (.richText [])) := by
  refine ⟨?_, ?_, ?_, ?_⟩
  · intro h
    rw [lookup_date, h]
    rfl
  · intro h
    rw [lookup_rating, h]
    rfl
  · intro h
    rw [lookup_image, h]
    rfl
  · intro h
    rw [lookup_author, h]
    rfl

theorem create_payload_omits_null_fields_witness :
    List.lookup (str "Date Read/Watched") (notionCreateMoviePage allNullArgs) = none ∧
    List.lookup (str "My Rating") (notionCreateMoviePage allNullArgs) = none ∧
    List.lookup (str "Image") (notionCreateMoviePage allNullArgs) = none ∧
    List.lookup (str "Author") (notionCreateMoviePage allNullArgs) = some (.richText []) :=
  ⟨(create_payload_omits_null_fields allNullArgs).1 rfl,
   (create_payload_omits_null_fields allNullArgs).2.1 rfl,
   (create_payload_omits_null_fields allNullArgs).2.2.1 rfl,
   (create_payload_omits_null_fields allNullArgs).2.2.2 rfl⟩

theorem truthyStr_poster (imgs : List HtmlImg) :
    truthyStr (posterFromRssDescription imgs) = posterFromRssDescription imgs := by
  unfold posterFromRssDescription
  rcases imgs.head? with _ | ⟨_ | s⟩
  · rfl
  · rfl
  · by_cases h : s = [] <;> simp [truthyStr, h]

/-- When the dedup check passes but enrichment is skipped (`TMDB_KEY` unset),
the created page is exactly the unenriched one. -/
theorem processItem_noKey (store : Str → Bool) (env : TmdbEnv) (item : FeedItem)
    (hkey : env.hasKey = false) (hl : item.link ≠ []) (hs : store item.link = false) :
    processItem store env item = .ok (some (notionCreateMoviePage (unenrichedArgs item))) := by
  unfold processItem
  rw [if_neg hl, if_neg (by simp [hs])]
  unfold enrichItem
  rw [if_neg (by simp [hkey])]
  rfl

/-- If `processItem` issues a create call, the dedup check found nothing for
the item's link, and the page's URL property is that link. -/
theorem processItem_some (store : Str → Bool) (env : TmdbEnv) (item : FeedItem)
    (page : List (Str × PropValue))
    (h : processItem store env item = .ok (some page)) :
    store item.link = false ∧
      List.lookup (str "Letterboxd URL") page = some (PropValue.url item.link) := by
  unfold processItem at h
  by_cases h1 : item.link = []
  · rw [if_pos h1] at h
    cases h
  · rw [if_neg h1] at h
    by_cases h2 : store item.link = true
    · rw [if_pos h2] at h
      cases h
    · rw [if_neg h2] at h
      refine ⟨Bool.eq_false_iff.mpr (fun hc => h2 hc), ?_⟩
      rcases he : enrichItem env (posterFromRssDescription item.descriptionImgs) with e | dp
      · rw [he] at h
        cases h
      · rw [he] at h
        have hp : notionCreateMoviePage
            { title := (parseRssTitle item.rawTitle).title
              director := dp.1
              watchedDate := item.watchedDate
              rating := starsToNumber (parseRssTitle item.rawTitle).stars
              posterUrl := dp.2
              goals := str "certified cinephile"
              status := str "watched"
              mediaType := str "movie"
              format := str "movie"
              letterboxdUrl := item.link } = page := by
          injection h with h3
          injection h3
        rw [← hp, lookup_url]

/-- No page that a run creates carries a URL property equal to a link the
store already held when the run started (the store only grows during a run). -/
theorem runSync_no_link_aux (envOf : FeedItem → TmdbEnv) (l : Str) :
    ∀ (items : List FeedItem) (store : Str → Bool), store l = true →
      ((runSync store envOf items).1.all
        (fun page => !(List.lookup (str "Letterboxd URL") page
          == some (PropValue.url l)))) = true := by
  intro items
  induction items with
  | nil =>
    intro store h
    rfl
  | cons item rest ih =>
    intro store h
    rcases hp : processItem store (envOf item) item with e | op
    · simp only [runSync, hp]
      rfl
    · rcases op with _ | page
      · simp only [runSync, hp]
        exact ih store h
      · obtain ⟨hs, hurl⟩ := processItem_some store (envOf item) item page hp
        have hne : ¬ (item.link = l) := by
          intro heq
          rw [heq, h] at hs
          cases hs
        simp only [runSync, hp, List.all_cons, Bool.and_eq_true, Bool.not_eq_true']
        constructor
        · rw [hurl]
          refine beq_eq_false_iff_ne.mpr ?_
          intro hc
          have h2 := Option.some.inj hc
          injection h2 with h3
          exact hne h3
        · exact ih _ (by simp [h])

/-- C1: for every feed item whose link already matches an existing record's
dedup-key in the destination store at the pre-write existence check, the
writer issues no create call for that item, and no run starting from such a
store creates a second record with that source link. -/
theorem writer_skips_existing_link (store : Str → Bool) (envOf : FeedItem → TmdbEnv)
    (items : List FeedItem) (env : TmdbEnv) (item : FeedItem)
    (h : store item.link = true) :
    processItem store env item = .ok none ∧
      ((runSync store envOf items).1.all
        (fun page => !(List.lookup (str "Letterboxd URL") page
          == some (PropValue.url item.link)))) = true := by
  constructor
  · unfold processItem
    by_cases h1 : item.link = []
    · rw [if_pos h1]
    · rw [if_neg h1, if_pos h]
  · exact runSync_no_link_aux envOf item.link items store h

theorem writer_skips_existing_link_witness :
    processItem sampleStoreHit sampleEnvNoKey sampleItem = .ok none ∧
      ((runSync sampleStoreHit (fun _ => sampleEnvNoKey) [sampleItem]).1.all
        (fun page => !(List.lookup (str "Letterboxd URL") page
          == some (PropValue.url sampleItem.link)))) = true :=
  writer_skips_existing_link sampleStoreHit (fun _ => sampleEnvNoKey) [sampleItem]
    sampleEnvNoKey sampleItem (by decide)

/-- C3 (counterexample): a network failure (rejected fetch) at the movie
search step is an uncaught exception: the item is not written and the run
aborts with the error, instead of degrading gracefully. -/
theorem enrichment_network_failure_aborts :
    processItem (fun _ => false)
      { hasKey := true, search := .reject, credits := .badStatus } sampleItem
      = .error .fetchRejected := rfl

/-- C3 (amended): a delivered response with a non-success HTTP status at
either enrichment step degrades gracefully — a failed search leaves director
null and poster the RSS fallback and the item is still written; a failed
credits lookup leaves director null while enrichment still succeeds.  (A
rejected fetch or a JSON-parse failure, by contrast, throws and aborts the
run, see the counterexample.) -/
theorem enrichment_http_error_degrades (store : Str → Bool) (item : FeedItem)
    (credits : FetchOutcome (Option (List CrewMember)))
    (hl : item.link ≠ []) (hs : store item.link = false) :
    processItem store { hasKey := true, search := .badStatus, credits := credits } item
      = .ok (some (notionCreateMoviePage (unenrichedArgs item))) ∧
    ∀ (results : Option (List TmdbMovie)) (fb : Option Str),
      ∃ posterUrl,
        enrichItem { hasKey := true, search := .ok results, credits := .badStatus } fb
          = .ok (none, posterUrl) := by
  constructor
  · unfold processItem
    rw [if_neg hl, if_neg (by simp [hs])]
    rfl
  · intro results fb
    rcases hh : (results.getD []).head? with _ | hit
    · exact ⟨fb, by simp [enrichItem, tmdbSearchMovie, hh]⟩
    · by_cases hid : hit.id = 0
      · exact ⟨fb, by simp [enrichItem, tmdbSearchMovie, hh, hid]⟩
      · rcases hq : tmdbPosterUrl hit.poster_path with _ | p
        · exact ⟨fb, by simp [enrichItem, tmdbSearchMovie, tmdbGetDirector, hh, hid, hq]⟩
        · exact ⟨some p, by simp [enrichItem, tmdbSearchMovie, tmdbGetDirector, hh, hid, hq]⟩

theorem enrichment_http_error_degrades_witness :
    processItem (fun _ => false)
        { hasKey := true, search := .badStatus, credits := .badStatus } sampleItem
      = .ok (some (notionCreateMoviePage (unenrichedArgs sampleItem))) ∧
    ∀ (results : Option (List TmdbMovie)) (fb : Option Str),
      ∃ posterUrl,
        enrichItem { hasKey := true, search := .ok results, credits := .badStatus } fb
          = .ok (none, posterUrl) :=
  enrichment_http_error_degrades (fun _ => false) sampleItem .badStatus (by decide) rfl

theorem lookup_image_unenriched (item : FeedItem) :
    List.lookup (str "Image") (notionCreateMoviePage (unenrichedArgs item))
      = (posterFromRssDescription item.descriptionImgs).map
          (fun u => PropValue.externalFiles [(str "poster", u)]) := by
  rw [lookup_image]
  show (truthyStr (posterFromRssDescription item.descriptionImgs)).map _ = _
  rw [truthyStr_poster]

/-- C6: with no metadata-service key configured, enrichment is a no-op — the
item is written with the unenriched record, whose director field is the empty
rich-text value and whose poster field is the RSS-extracted fallback (absent
when the description has no usable image). -/
theorem no_tmdb_key_no_enrichment (store : Str → Bool) (env : TmdbEnv) (item : FeedItem)
    (hkey : env.hasKey = false) (hl : item.link ≠ []) (hs : store item.link = false) :
    processItem store env item = .ok (some (notionCreateMoviePage (unenrichedArgs item))) ∧
    List.lookup (str "Author") (notionCreateMoviePage (unenrichedArgs item))
      = some (.richText []) ∧
    List.lookup (str "Image") (notionCreateMoviePage (unenrichedArgs item))
      = (posterFromRssDescription item.descriptionImgs).map
          (fun u => PropValue.externalFiles [(str "poster", u)]) := by
  refine ⟨processItem_noKey store env item hkey hl hs, ?_, lookup_image_unenriched item⟩
  rw [lookup_author]
  rfl

theorem no_tmdb_key_no_enrichment_witness :
    processItem (fun _ => false) sampleEnvNoKey sampleItem
      = .ok (some (notionCreateMoviePage (unenrichedArgs sampleItem))) ∧
    List.lookup (str "Author") (notionCreateMoviePage (unenrichedArgs sampleItem))
      = some (.richText []) ∧
    List.lookup (str "Image") (notionCreateMoviePage (unenrichedArgs sampleItem))
      = (posterFromRssDescription sampleItem.descriptionImgs).map
          (fun u => PropValue.externalFiles [(str "poster", u)]) :=
  no_tmdb_key_no_enrichment (fun _ => false) sampleEnvNoKey sampleItem rfl (by decide) rfl

/-- C7 (counterexample): in the §8 end-to-end run the director field is not
omitted — the created record's `"Author"` property is present (with an empty
rich-text value). -/
theorem endToEnd_author_field_present :
    List.lookup (str "Author")
        ((runSync (fun _ => false) (fun _ => sampleEnvNoKey) [standByMeItem none []]).1.headD [])
      ≠ none := by
  have h1 : processItem (fun _ => false) sampleEnvNoKey (standByMeItem none [])
      = .ok (some (notionCreateMoviePage (unenrichedArgs (standByMeItem none [])))) :=
    processItem_noKey _ _ _ rfl (by decide) rfl
  simp only [runSync, h1, List.headD_cons]
  rw [lookup_author]
  simp

/-- C7 (amended): a run over exactly the §8 feed item, against a store with
no existing match and with the metadata service disabled, creates exactly one
record: title `"Stand by Me"`, rating 4, director present as an empty
rich-text field, poster the RSS fallback image (absent when none), and the
dedup URL field equal to the item's link. -/
theorem endToEnd_single_item_run (store : Str → Bool) (envOf : FeedItem → TmdbEnv)
    (wd : Option Str) (imgs : List HtmlImg)
    (hs : store (str "https://example.com/film/x") = false)
    (hk : (envOf (standByMeItem wd imgs)).hasKey = false) :
    ∃ page, runSync store envOf [standByMeItem wd imgs] = ([page], none) ∧
      List.lookup (str "Name") page = some (.titleContent (str "Stand by Me")) ∧
      List.lookup (str "My Rating") page = some (.number 4) ∧
      List.lookup (str "Author") page = some (.richText []) ∧
      List.lookup (str "Image") page
        = (posterFromRssDescription imgs).map
            (fun u => PropValue.externalFiles [(str "poster", u)]) ∧
      List.lookup (str "Letterboxd URL") page
        = some (.url (str "https://example.com/film/x")) := by
  have hl2 : (standByMeItem wd imgs).link ≠ [] := by
    show str "https://example.com/film/x" ≠ []
    decide
  have h1 : processItem store (envOf (standByMeItem wd imgs)) (standByMeItem wd imgs)
      = .ok (some (notionCreateMoviePage (unenrichedArgs (standByMeItem wd imgs)))) :=
    processItem_noKey store (envOf (standByMeItem wd imgs)) (standByMeItem wd imgs) hk hl2 hs
  refine ⟨notionCreateMoviePage (unenrichedArgs (standByMeItem wd imgs)),
    ?_, ?_, ?_, ?_, ?_, ?_⟩
  · simp only [runSync, h1]
  · rw [lookup_name]
    have ht : (unenrichedArgs (standByMeItem wd imgs)).title = str "Stand by Me" := by
      show (parseRssTitle (str "Stand by Me, 1986 - ★★★★")).title = str "Stand by Me"
      decide
    rw [ht]
  · rw [lookup_rating]
    have hr : (unenrichedArgs (standByMeItem wd imgs)).rating = some 4 := by
      show starsToNumber (parseRssTitle (str "Stand by Me, 1986 - ★★★★")).stars = some 4
      rw [(by decide : (parseRssTitle (str "Stand by Me, 1986 - ★★★★")).stars
            = some (str "★★★★")),
        starsToNumber_some_eq, (by decide : halfUnits (str "★★★★") = 8)]
      norm_num
    rw [hr]
    rfl
  · rw [lookup_author]
    rfl
  · exact lookup_image_unenriched (standByMeItem wd imgs)
  · rw [lookup_url]
    rfl

theorem endToEnd_single_item_run_witness :
    ∃ page, runSync (fun _ => false) (fun _ => sampleEnvNoKey) [standByMeItem none []]
        = ([page], none) ∧
      List.lookup (str "Name") page = some (.titleContent (str "Stand by Me")) ∧
      List.lookup (str "My Rating") page = some (.number 4) ∧
      List.lookup (str "Author") page = some (.richText []) ∧
      List.lookup (str "Image") page
        = (posterFromRssDescription []).map
            (fun u => PropValue.externalFiles [(str "poster", u)]) ∧
      List.lookup (str "Letterboxd URL") page
        = some (.url (str "https://example.com/film/x")) :=
  endToEnd_single_item_run (fun _ => false) (fun _ => sampleEnvNoKey) none [] rfl rfl

theorem hasSepIn_cons_false (a : Char) (m : Str) (h : hasSepIn (a :: m) = false) :
    hasSepIn m = false := by
  rcases m with _ | ⟨b, m1⟩
  · rfl
  · rcases m1 with _ | ⟨c, m2⟩
    · rfl
    · simp only [hasSepIn, Bool.or_eq_false_iff] at h
      exact h.2

theorem hasSepIn_head_false (a b c : Char) (r : Str)
    (h : hasSepIn (a :: b :: c :: r) = false) :
    (a == ' ' && b == '-' && c == ' ') = false := by
  simp only [hasSepIn, Bool.or_eq_false_iff] at h
  exact h.1

theorem splitDash_step (acc : Str) (a t1 t2 : Char) (r : Str)
    (h : (a == ' ' && t1 == '-' && t2 == ' ') = false) :
    splitDash acc (a :: t1 :: t2 :: r) = splitDash (acc ++ [a]) (t1 :: t2 :: r) := by
  show (if a == ' ' && t1 == '-' && t2 == ' ' then acc :: splitDash [] r
        else splitDash (acc ++ [a]) (t1 :: t2 :: r)) = _
  rw [if_neg (by simp [h])]

theorem splitDash_sep (acc : Str) (r : Str) :
    splitDash acc (' ' :: '-' :: ' ' :: r) = acc :: splitDash [] r := rfl

/-- Scanning `L ++ tail` consumes all of `L` into the accumulator when no
separator occurrence starts inside `L` (windows reaching up to two characters
into `tail` included). -/
theorem splitDash_append (L : Str) : ∀ (acc tail : Str),
    hasSepIn (L ++ tail.take 2) = false →
    splitDash acc (L ++ tail) = splitDash (acc ++ L) tail := by
  induction L with
  | nil =>
    intro acc tail h
    simp
  | cons a L ih =>
    intro acc tail h
    have h' : hasSepIn (L ++ tail.take 2) = false := hasSepIn_cons_false a _ h
    rcases L with _ | ⟨b, L2⟩
    · rcases tail with _ | ⟨t1, tail1⟩
      · rfl
      · rcases tail1 with _ | ⟨t2, tail2⟩
        · simp [splitDash]
        · have htest : (a == ' ' && t1 == '-' && t2 == ' ') = false :=
            hasSepIn_head_false a t1 t2 _ h
          rw [List.singleton_append, splitDash_step acc a t1 t2 tail2 htest]
    · rcases L2 with _ | ⟨c, L3⟩
      · rcases tail with _ | ⟨t1, tail1⟩
        · simp [splitDash]
        · have htest : (a == ' ' && b == '-' && t1 == ' ') = false :=
            hasSepIn_head_false a b t1 _ h
          rw [show ([a, b] ++ t1 :: tail1) = a :: b :: t1 :: tail1 from rfl,
            splitDash_step acc a b t1 tail1 htest]
          have h2 := ih (acc ++ [a]) (t1 :: tail1) h'
          rw [show ([b] ++ t1 :: tail1) = b :: t1 :: tail1 from rfl] at h2
          rw [h2, List.append_assoc]
          rfl
      · have htest : (a == ' ' && b == '-' && c == ' ') = false :=
          hasSepIn_head_false a b c _ h
        rw [show ((a :: b :: c :: L3) ++ tail) = a :: b :: c :: (L3 ++ tail) from rfl,
          splitDash_step acc a b c (L3 ++ tail) htest]
        have h2 := ih (acc ++ [a]) tail h'
        rw [show ((b :: c :: L3) ++ tail) = b :: c :: (L3 ++ tail) from rfl] at h2
        rw [h2, List.append_assoc]
        rfl

theorem hasSepIn_append_comma_space (T : Str) (h : hasSepIn T = false) :
    hasSepIn (T ++ [',', ' ']) = false := by
  induction T with
  | nil => rfl
  | cons a T ih =>
    have h' := hasSepIn_cons_false a T h
    rcases T with _ | ⟨b, T2⟩
    · show ((a == ' ' && (',' == '-') && (' ' == ' ')) || hasSepIn [',', ' ']) = false
      simp [(by decide : ((',' : Char) == '-') = false),
        (by decide : hasSepIn [',', ' '] = false)]
    · rcases T2 with _ | ⟨c, T3⟩
      · show ((a == ' ' && b == '-' && (',' == ' '))
            || hasSepIn (b :: [',', ' '])) = false
        have h2 : hasSepIn (b :: [',', ' '])
            = ((b == ' ' && (',' == '-') && (' ' == ' ')) || hasSepIn [',', ' ']) := rfl
        rw [h2]
        simp [(by decide : ((',' : Char) == ' ') = false),
          (by decide : ((',' : Char) == '-') = false),
          (by decide : hasSepIn [',', ' '] = false)]
      · show ((a == ' ' && b == '-' && c == ' ')
            || hasSepIn (b :: c :: (T3 ++ [',', ' ']))) = false
        rw [hasSepIn_head_false a b c T3 h, Bool.false_or]
        exact ih h'

theorem dropWhile_eq_self_of_head (p : Char → Bool) (l : Str)
    (h : ∀ c, l.head? = some c → p c = false) : l.dropWhile p = l := by
  rcases l with _ | ⟨a, t⟩
  · rfl
  · rw [List.dropWhile_cons, if_neg (by simp [h a rfl])]

theorem trimChars_eq_self (l : Str)
    (h1 : ∀ c, l.head? = some c → isSpaceChar c = false)
    (h2 : ∀ c, l.getLast? = some c → isSpaceChar c = false) :
    trimChars l = l := by
  unfold trimChars
  rw [dropWhile_eq_self_of_head _ _ h1,
    dropWhile_eq_self_of_head _ _ (fun c hc => h2 c (by rwa [List.head?_reverse] at hc)),
    List.reverse_reverse]

theorem digit_facts (y : Char) (hy : y.isDigit = true) :
    (y == '-') = false ∧ (y == ' ') = false ∧ isSpaceChar y = false := by
  have hne : ∀ c : Char, c.isDigit = false → (y == c) = false := by
    intro c hc
    refine beq_eq_false_iff_ne.mpr ?_
    rintro rfl
    rw [hy] at hc
    cases hc
  refine ⟨hne '-' (by decide), hne ' ' (by decide), ?_⟩
  simp [isSpaceChar, hne ' ' (by decide), hne '\t' (by decide), hne '\n' (by decide),
    hne '\r' (by decide), hne '\x0b' (by decide), hne '\x0c' (by decide)]

theorem splitDash_title_shape (T : Str) (y1 y2 y3 y4 : Char) (SS : Str)
    (hsep : hasSepIn T = false)
    (h1 : y1.isDigit = true) (h2 : y2.isDigit = true) (h3 : y3.isDigit = true)
    (h4 : y4.isDigit = true)
    (hSS : splitDash [] SS = [SS]) :
    splitDash [] (T ++ [',', ' '] ++ [y1, y2, y3, y4] ++ (' ' :: '-' :: ' ' :: SS))
      = [T ++ [',', ' '] ++ [y1, y2, y3, y4], SS] := by
  have e1 : T ++ [',', ' '] ++ [y1, y2, y3, y4] ++ (' ' :: '-' :: ' ' :: SS)
      = T ++ ([',', ' '] ++ ([y1, y2, y3, y4] ++ (' ' :: '-' :: ' ' :: SS))) := by
    simp [List.append_assoc]
  rw [e1]
  have hstep1 : hasSepIn
      (T ++ ([',', ' '] ++ ([y1, y2, y3, y4] ++ (' ' :: '-' :: ' ' :: SS))).take 2) = false :=
    hasSepIn_append_comma_space T hsep
  rw [splitDash_append T [] _ hstep1, List.nil_append]
  have hstep2 : hasSepIn
      ([',', ' '] ++ ([y1, y2, y3, y4] ++ (' ' :: '-' :: ' ' :: SS)).take 2) = false := by
    show (((',' == ' ') && (' ' == '-') && (y1 == ' '))
        || (((' ' == ' ') && (y1 == '-') && (y2 == ' ')) || hasSepIn [y1, y2])) = false
    rw [show hasSepIn [y1, y2] = false from rfl]
    simp [(by decide : ((',' : Char) == ' ') = false), (digit_facts y1 h1).1]
  rw [splitDash_append [',', ' '] T _ hstep2]
  have hstep3 : hasSepIn ([y1, y2, y3, y4] ++ (' ' :: '-' :: ' ' :: SS).take 2) = false := by
    show (((y1 == ' ') && (y2 == '-') && (y3 == ' '))
        || (((y2 == ' ') && (y3 == '-') && (y4 == ' '))
        || (((y3 == ' ') && (y4 == '-') && ((' ' : Char) == ' '))
        || (((y4 == ' ') && ((' ' : Char) == '-') && (('-' : Char) == ' '))
        || hasSepIn [' ', '-'])))) = false
    rw [show hasSepIn [' ', '-'] = false from rfl]
    simp [(digit_facts y1 h1).2.1, (digit_facts y2 h2).1, (digit_facts y2 h2).2.1,
      (digit_facts y3 h3).1, (digit_facts y3 h3).2.1,
      (digit_facts y4 h4).1, (digit_facts y4 h4).2.1]
  rw [splitDash_append [y1, y2, y3, y4] (T ++ [',', ' ']) _ hstep3]
  rw [splitDash_sep, hSS]

theorem matchTitleYear_shape (T : Str) (y1 y2 y3 y4 : Char)
    (h1 : y1.isDigit = true) (h2 : y2.isDigit = true) (h3 : y3.isDigit = true)
    (h4 : y4.isDigit = true)
    (hnl : T.all (fun c => !(isLineTerminator c)) = true) :
    matchTitleYear (T ++ [',', ' '] ++ [y1, y2, y3, y4]) = some (T, [y1, y2, y3, y4]) := by
  have hrev : (T ++ [',', ' '] ++ [y1, y2, y3, y4]).reverse
      = y4 :: y3 :: y2 :: y1 :: ' ' :: ',' :: T.reverse := by
    simp [List.reverse_append]
  unfold matchTitleYear
  rw [hrev]
  have hcond : (((',' : Char) == ',') && isSpaceChar ' ' && y1.isDigit && y2.isDigit
      && y3.isDigit && y4.isDigit
      && (T.reverse.all (fun c => !(isLineTerminator c)))) = true := by
    rw [h1, h2, h3, h4, List.all_reverse, hnl]
    decide
  show (if ((',' : Char) == ',') && isSpaceChar ' ' && y1.isDigit && y2.isDigit
      && y3.isDigit && y4.isDigit && (T.reverse.all (fun c => !(isLineTerminator c))) then
        some (T.reverse.reverse, [y1, y2, y3, y4])
      else none) = some (T, [y1, y2, y3, y4])
  rw [if_pos hcond, List.reverse_reverse]

/-- C2 (amended): for every nonempty title T that contains no occurrence of
the separator `" - "`, does not start with whitespace and contains no line
terminator, and every 4-digit year string YYYY, normalizing the raw title
`"T, YYYY - ★★★½"` yields title = T, year = YYYY and rating = 3.5. -/
theorem normalize_title_year_stars (T Y : Str)
    (hT : T ≠ [])
    (hsep : hasSepIn T = false)
    (hhead : ∀ c, T.head? = some c → isSpaceChar c = false)
    (hnl : T.all (fun c => !(isLineTerminator c)) = true)
    (hYlen : Y.length = 4)
    (hYd : Y.all Char.isDigit = true) :
    parseRssTitle (T ++ str ", " ++ Y ++ str " - ★★★½")
      = { title := T, year := some Y, stars := some (str "★★★½") } ∧
    starsToNumber (parseRssTitle (T ++ str ", " ++ Y ++ str " - ★★★½")).stars
      = some (7 / 2) := by
  rcases Y with _ | ⟨y1, Y⟩
  · simp only [List.length_nil] at hYlen
    omega
  rcases Y with _ | ⟨y2, Y⟩
  · simp only [List.length_cons, List.length_nil] at hYlen
    omega
  rcases Y with _ | ⟨y3, Y⟩
  · simp only [List.length_cons, List.length_nil] at hYlen
    omega
  rcases Y with _ | ⟨y4, Y⟩
  · simp only [List.length_cons, List.length_nil] at hYlen
    omega
  rcases Y with _ | ⟨y5, Y⟩
  swap
  · exfalso
    simp only [List.length_cons] at hYlen
    omega
  simp only [List.all_cons, Bool.and_eq_true, List.all_nil, and_true] at hYd
  obtain ⟨hd1, hd2, hd3, hd4⟩ := hYd
  rcases T with _ | ⟨a0, T0⟩
  · exact absurd rfl hT
  have hraw : (a0 :: T0) ++ str ", " ++ [y1, y2, y3, y4] ++ str " - ★★★½"
      = (a0 :: T0) ++ [',', ' '] ++ [y1, y2, y3, y4]
          ++ (' ' :: '-' :: ' ' :: str "★★★½") := rfl
  rw [hraw]
  have htrimraw : trimChars ((a0 :: T0) ++ [',', ' '] ++ [y1, y2, y3, y4]
      ++ (' ' :: '-' :: ' ' :: str "★★★½"))
      = (a0 :: T0) ++ [',', ' '] ++ [y1, y2, y3, y4]
          ++ (' ' :: '-' :: ' ' :: str "★★★½") := by
    refine trimChars_eq_self _ ?_ ?_
    · intro c hc
      have hc2 : (some a0 : Option Char) = some c := hc
      cases hc2
      exact hhead a0 rfl
    · intro c hc
      rw [List.getLast?_append,
        (by decide : (' ' :: '-' :: ' ' :: str "★★★½").getLast? = some '½')] at hc
      have hc2 : (some '½' : Option Char) = some c := hc
      cases hc2
      decide
  have hsplit := splitDash_title_shape (a0 :: T0) y1 y2 y3 y4 (str "★★★½")
    hsep hd1 hd2 hd3 hd4 (by decide)
  have htrimA : trimChars ((a0 :: T0) ++ [',', ' '] ++ [y1, y2, y3, y4])
      = (a0 :: T0) ++ [',', ' '] ++ [y1, y2, y3, y4] := by
    refine trimChars_eq_self _ ?_ ?_
    · intro c hc
      have hc2 : (some a0 : Option Char) = some c := hc
      cases hc2
      exact hhead a0 rfl
    · intro c hc
      rw [List.getLast?_append, (by simp : [y1, y2, y3, y4].getLast? = some y4)] at hc
      have hc2 : (some y4 : Option Char) = some c := hc
      cases hc2
      exact (digit_facts y4 hd4).2.2
  have hparts : rssParts ((a0 :: T0) ++ [',', ' '] ++ [y1, y2, y3, y4]
      ++ (' ' :: '-' :: ' ' :: str "★★★½"))
      = [(a0 :: T0) ++ [',', ' '] ++ [y1, y2, y3, y4], str "★★★½"] := by
    unfold rssParts
    rw [htrimraw, hsplit]
    simp only [List.map_cons, List.map_nil, htrimA,
      (by decide : trimChars (str "★★★½") = str "★★★½")]
  have hmy := matchTitleYear_shape (a0 :: T0) y1 y2 y3 y4 hd1 hd2 hd3 hd4 hnl
  have hcand : titleCandidate ((a0 :: T0) ++ [',', ' '] ++ [y1, y2, y3, y4]) = a0 :: T0 := by
    unfold titleCandidate
    rw [hmy]
  have hmain : parseRssTitle ((a0 :: T0) ++ [',', ' '] ++ [y1, y2, y3, y4]
      ++ (' ' :: '-' :: ' ' :: str "★★★½"))
      = { title := a0 :: T0, year := some [y1, y2, y3, y4], stars := some (str "★★★½") } := by
    unfold parseRssTitle
    rw [hparts]
    simp only [List.headD_cons, List.getElem?_cons_succ, List.getElem?_cons_zero]
    rw [hcand, hmy, if_neg (List.cons_ne_nil a0 T0)]
    rfl
  refine ⟨hmain, ?_⟩
  rw [hmain]
  show starsToNumber (some (str "★★★½")) = some (7 / 2)
  rw [starsToNumber_some_eq, (by decide : halfUnits (str "★★★½") = 7)]
  norm_num

theorem normalize_title_year_stars_witness :
    parseRssTitle (str "Heat" ++ str ", " ++ str "1995" ++ str " - ★★★½")
      = { title := str "Heat", year := some (str "1995"), stars := some (str "★★★½") } ∧
    starsToNumber (parseRssTitle (str "Heat" ++ str ", " ++ str "1995" ++ str " - ★★★½")).stars
      = some (7 / 2) :=
  normalize_title_year_stars (str "Heat") (str "1995") (by decide) (by decide)
    (by decide) (by decide) (by decide) (by decide)
